import Mathlib

/-!
Verification of the version-aware serialization layer of
`qcodes/dataset/descriptions/versioning/serialization.py`.

The module under verification converts `RunDescriber` documents between
registered versions (0 and 1) and between in-memory objects, plain
mappings, JSON text and YAML text.  Its collaborators (the document
variants `v0.RunDescriber` / `current.RunDescriber`, the converter
functions `v0_to_v1` / `v1_to_v0`, and the host `json` / YAML libraries)
are outside the module; they are modelled from the specification and
marked as such in their doc comments.  Everything else is a direct
translation of the source.
-/

set_option autoImplicit false

/-- A primitive value as produced by the text parsers and the document
serializers: a string, an integer, or a list of strings.  This is the
value universe the plain mappings range over, restricted to the shapes
the modelled document schema uses (the spec keeps the full schema out of
scope). -/
inductive Val where
  | str (s : String)
  | nat (n : Nat)
  | strs (l : List String)
  deriving Repr, DecidableEq

/-- A plain mapping (Python `dict`) from string keys to primitive values,
kept in insertion order. -/
abbrev Mapping := List (String × Val)

/-- Key lookup in a plain mapping (Python `dct[key]`, but `Option`-valued:
`none` models the `KeyError` on a missing key). -/
def Mapping.get (m : Mapping) (k : String) : Option Val :=
  (m.find? (fun kv => kv.fst == k)).map Prod.snd

/-- Modelled from the spec: the ordered-mapping type returned by the host
YAML parser (`yaml.load returns an OrderedDict`), a distinct container
type carrying the parsed entries in document order. -/
structure OrderedMapping where
  entries : List (String × Val)
  deriving Repr, DecidableEq

/-- The Python `dict(...)` constructor applied to an ordered mapping:
normalizes the parser's specialized container into a plain mapping. -/
def dictOfOrderedMapping (m : OrderedMapping) : Mapping :=
  m.entries

/-- Encoding of a list of strings as a primitive value (the serialized
shape of a document field). -/
def encodeStrList (l : List String) : Val :=
  .strs l

/-- Decoding of a primitive value back into a list of strings; non-string
entries and non-list values decode to the empty default. -/
def decodeStrList : Val → List String
  | .strs l => l
  | _ => []

/-- Modelled from the spec: the version-0 document variant
(`v0.RunDescriber`, not under the sources verified here).  The spec keeps
the full schema out of scope; the variant carries a representative
`interdependencies` field. -/
structure RunDescriberV0 where
  interdependencies : List String
  deriving Repr, DecidableEq

/-- Modelled from the spec: the current (version-1) document variant
(`current.RunDescriber`, not under the sources verified here).  Besides
the shared `interdependencies` field it carries a v1-only `paramspecs`
field that is not representable at version 0. -/
structure RunDescriberV1 where
  interdependencies : List String
  paramspecs : List String
  deriving Repr, DecidableEq

/-- Modelled from the spec: `v0.RunDescriber._to_dict` — the mapping
representation always contains a `version` key equal to the variant's
own version tag, plus the variant's fields serialized to primitives. -/
def RunDescriberV0._to_dict (d : RunDescriberV0) : Mapping :=
  [("version", .nat 0),
   ("interdependencies", encodeStrList d.interdependencies)]

/-- Modelled from the spec: `current.RunDescriber._to_dict`. -/
def RunDescriberV1._to_dict (d : RunDescriberV1) : Mapping :=
  [("version", .nat 1),
   ("interdependencies", encodeStrList d.interdependencies),
   ("paramspecs", encodeStrList d.paramspecs)]

/-- Modelled from the spec: `v0.RunDescriber._from_dict` — the variant's
own mapping-to-object constructor, reading the variant's fields (missing
or ill-typed fields fall back to empty defaults). -/
def RunDescriberV0._from_dict (dct : Mapping) : RunDescriberV0 :=
  { interdependencies :=
      decodeStrList ((dct.get "interdependencies").getD (.strs [])) }

/-- Modelled from the spec: `current.RunDescriber._from_dict`. -/
def RunDescriberV1._from_dict (dct : Mapping) : RunDescriberV1 :=
  { interdependencies :=
      decodeStrList ((dct.get "interdependencies").getD (.strs []))
    paramspecs :=
      decodeStrList ((dct.get "paramspecs").getD (.strs [])) }

/-- `SomeRunDescriber = Union[current.RunDescriber, v0.RunDescriber]`:
a document of either registered version. -/
inductive SomeRunDescriber where
  | v0 (d : RunDescriberV0)
  | v1 (d : RunDescriberV1)
  deriving Repr, DecidableEq

/-- The `version` attribute of a document: each variant exposes its own
integer version tag. -/
def SomeRunDescriber.version : SomeRunDescriber → Nat
  | .v0 _ => 0
  | .v1 _ => 1

/-- Dynamic dispatch of `_to_dict` on the concrete variant. -/
def SomeRunDescriber._to_dict : SomeRunDescriber → Mapping
  | .v0 d => d._to_dict
  | .v1 d => d._to_dict

/-- Modelled from the spec: the upgrade converter `v0_to_v1` (from the
`converters` module, not under the sources verified here) — total and
lossless, giving empty defaults to the fields v0 cannot carry. -/
def v0_to_v1 (d : RunDescriberV0) : RunDescriberV1 :=
  { interdependencies := d.interdependencies, paramspecs := [] }

/-- Modelled from the spec: the downgrade converter `v1_to_v0` (from the
`converters` module, not under the sources verified here) — lossy, the
fields not representable in the version-0 schema are dropped. -/
def v1_to_v0 (d : RunDescriberV1) : RunDescriberV0 :=
  { interdependencies := d.interdependencies }

/-- The exceptions the serialization module can surface, one constructor
per distinct raise site:
`unknownVersion` is the `RuntimeError` raised by `from_dict_to_native`
on an unregistered `version` value (the spec's `UnknownVersionError`);
`unsupportedConversion` is the `KeyError` raised by indexing
`_converters` at an unregistered `(from_version, to_version)` pair (the
spec's `UnsupportedConversionError`);
`missingKey` is the `KeyError` on `dct[key]` for an absent key;
`typeError` models a registered converter applied to a document of the
wrong variant. -/
inductive SerializationError where
  | unknownVersion
  | unsupportedConversion (key : Nat × Nat)
  | missingKey (k : String)
  | typeError
  deriving Repr, DecidableEq

/-- `CURRENT_VERSION = 1`: the version of `RunDescriber` used within
qcodes. -/
def CURRENT_VERSION : Nat := 1

/-- `STORAGE_VERSION = 0`: the version of `RunDescriber` used by the
data storage infrastructure. -/
def STORAGE_VERSION : Nat := 0

/-- The converter table, keys `(from_version, to_version)`:
`(0, 0)` and `(1, 1)` hold `lambda x: x`, `(0, 1)` holds `v0_to_v1`,
`(1, 0)` holds `v1_to_v0`; every other key is absent (`none`).  A stored
converter expects the variant matching its key's first component and
yields `none` (a dynamic type error) on the other variant; the module
only ever applies a converter looked up at `(desc.version, _)`, so that
branch is unreachable from its entry points. -/
def _converters : Nat × Nat → Option (SomeRunDescriber → Option SomeRunDescriber)
  | (0, 0) => some (fun x => some x)
  | (0, 1) => some (fun x => match x with
      | .v0 d => some (.v1 (v0_to_v1 d))
      | _ => none)
  | (1, 0) => some (fun x => match x with
      | .v1 d => some (.v0 (v1_to_v0 d))
      | _ => none)
  | (1, 1) => some (fun x => some x)
  | _ => none

/-- `from_dict_to_native(dct)`: convert a dict into a `RunDescriber`
object according to the version specified in the dict.  Reads
`dct['version']`, dispatches to `v0.RunDescriber._from_dict` on 0 and
`current.RunDescriber._from_dict` on 1, and raises the unknown-version
`RuntimeError` otherwise. -/
def from_dict_to_native (dct : Mapping) : Except SerializationError SomeRunDescriber :=
  match dct.get "version" with
  | none => .error (.missingKey "version")
  | some dct_version =>
    if dct_version = .nat 0 then
      .ok (.v0 (RunDescriberV0._from_dict dct))
    else if dct_version = .nat 1 then
      .ok (.v1 (RunDescriberV1._from_dict dct))
    else
      .error .unknownVersion

/-- `from_dict_to_current(dct)`: convert a dict into a `RunDescriber` of
the current version, by composing `from_dict_to_native` with the
converter looked up at `(desc.version, CURRENT_VERSION)`. -/
def from_dict_to_current (dct : Mapping) : Except SerializationError SomeRunDescriber :=
  match from_dict_to_native dct with
  | .error e => .error e
  | .ok desc =>
    match _converters (desc.version, CURRENT_VERSION) with
    | none => .error (.unsupportedConversion (desc.version, CURRENT_VERSION))
    | some conv =>
      match conv desc with
      | none => .error .typeError
      | some d => .ok d

/-- `to_dict_as_version(desc, version)`: convert the given
`RunDescriber` into a dictionary that represents a `RunDescriber` of the
given version, via `_converters[(desc.version, version)](desc)._to_dict()`. -/
def to_dict_as_version (desc : SomeRunDescriber) (version : Nat) :
    Except SerializationError Mapping :=
  match _converters (desc.version, version) with
  | none => .error (.unsupportedConversion (desc.version, version))
  | some conv =>
    match conv desc with
    | none => .error .typeError
    | some d => .ok d._to_dict

/-- `to_dict_for_storage(desc) = to_dict_as_version(desc, STORAGE_VERSION)`. -/
def to_dict_for_storage (desc : SomeRunDescriber) :
    Except SerializationError Mapping :=
  to_dict_as_version desc STORAGE_VERSION

/-- Modelled from the spec: the host `json` library's text form.  The
compact codec's syntax is out of the spec's scope; a JSON text is
represented by the mapping it deterministically encodes. -/
structure JsonText where
  parsed : Mapping
  deriving Repr, DecidableEq

/-- Modelled from the spec: `json.dumps`, the deterministic compact text
encoding of a mapping of primitives. -/
def jsonDumps (m : Mapping) : JsonText :=
  ⟨m⟩

/-- Modelled from the spec: `json.loads`, parsing a compact text back
into the mapping it encodes. -/
def jsonLoads (t : JsonText) : Mapping :=
  t.parsed

/-- Modelled from the spec: the host YAML library's text form.  The
human-readable syntax is out of the spec's scope; a YAML text is
represented by the ordered mapping its parse returns. -/
structure YamlText where
  parsed : OrderedMapping
  deriving Repr, DecidableEq

/-- Modelled from the spec: `yaml.dump`, writing a mapping in the
human-readable block syntax (parsing it back returns the same entries,
as an ordered mapping). -/
def yamlDump (m : Mapping) : YamlText :=
  ⟨⟨m⟩⟩

/-- Modelled from the spec: `yaml.load`, parsing a human-readable text
into the parser's ordered-mapping type. -/
def yamlLoad (t : YamlText) : OrderedMapping :=
  t.parsed

/-- `to_json_for_storage(desc) = json.dumps(to_dict_for_storage(desc))`. -/
def to_json_for_storage (desc : SomeRunDescriber) :
    Except SerializationError JsonText :=
  (to_dict_for_storage desc).map jsonDumps

/-- `to_json_as_version(desc, version) = json.dumps(to_dict_as_version(desc, version))`. -/
def to_json_as_version (desc : SomeRunDescriber) (version : Nat) :
    Except SerializationError JsonText :=
  (to_dict_as_version desc version).map jsonDumps

/-- `from_json_to_current(s) = from_dict_to_current(json.loads(s))`. -/
def from_json_to_current (t : JsonText) :
    Except SerializationError SomeRunDescriber :=
  from_dict_to_current (jsonLoads t)

/-- `from_json_to_native(s) = from_dict_to_native(json.loads(s))`. -/
def from_json_to_native (t : JsonText) :
    Except SerializationError SomeRunDescriber :=
  from_dict_to_native (jsonLoads t)

/-- `to_yaml_for_storage(desc)`: dump `to_dict_for_storage(desc)` in the
human-readable syntax. -/
def to_yaml_for_storage (desc : SomeRunDescriber) :
    Except SerializationError YamlText :=
  (to_dict_for_storage desc).map yamlDump

/-- `from_yaml_to_current(s)`: parse, normalize the parser's ordered
mapping into a plain dict (`dict(yaml.load(yaml_str))`), then
`from_dict_to_current`. -/
def from_yaml_to_current (t : YamlText) :
    Except SerializationError SomeRunDescriber :=
  from_dict_to_current (dictOfOrderedMapping (yamlLoad t))

/-! ## General lemmas about the embedding -/

/-- Reconstructing a document from its own mapping representation gives
back the document: `_from_dict` inverts `_to_dict` on each variant. -/
theorem from_dict_to_native_to_dict (d : SomeRunDescriber) :
    from_dict_to_native d._to_dict = .ok d := by
  cases d with
  | v0 x => cases x; rfl
  | v1 x => cases x; rfl

/-- Converting a document to a mapping at its own version succeeds and
yields its own `_to_dict`, through the identity converter. -/
theorem to_dict_as_version_self (d : SomeRunDescriber) :
    to_dict_as_version d d.version = .ok d._to_dict := by
  cases d with
  | v0 x => rfl
  | v1 x => rfl

/-- The converter table holds no entry outside the four registered keys. -/
theorem converters_none_outside (a b : Nat) (h : 2 ≤ a ∨ 2 ≤ b) :
    _converters (a, b) = none := by
  match a, b, h with
  | n + 2, b, _ => rfl
  | 0, n + 2, _ => rfl
  | 1, n + 2, _ => rfl
  | 0, 0, h | 0, 1, h | 1, 0, h | 1, 1, h => omega

/-! ## Claim theorems -/

/-- C1: a mapping whose `version` entry is neither 0 nor 1 makes
`from_dict_to_native` raise the unknown-version error (the spec's
`UnknownVersionError`), and the error propagates unchanged through the
caller `from_dict_to_current`. -/
theorem from_dict_to_native_unknown_version (dct : Mapping) (v : Val)
    (hget : dct.get "version" = some v)
    (h0 : v ≠ .nat 0) (h1 : v ≠ .nat 1) :
    from_dict_to_native dct = .error .unknownVersion ∧
    from_dict_to_current dct = .error .unknownVersion := by
  have hn : from_dict_to_native dct = .error .unknownVersion := by
    simp [from_dict_to_native, hget, h0, h1]
  refine ⟨hn, ?_⟩
  unfold from_dict_to_current
  rw [hn]

/-- Witness for C1 at the spec's concrete input `{"version": 999}`. -/
theorem from_dict_to_native_unknown_version_witness :
    from_dict_to_native [("version", Val.nat 999)] = .error .unknownVersion ∧
    from_dict_to_current [("version", Val.nat 999)] = .error .unknownVersion :=
  from_dict_to_native_unknown_version [("version", Val.nat 999)] (Val.nat 999)
    rfl (by decide) (by decide)

/-- C2: the converter lookup in `to_dict_as_version` succeeds for every
registered target version (0 or 1), whatever the document, and an
unregistered `(desc.version, target)` pair makes it raise the
unsupported-conversion error (the spec's `UnsupportedConversionError`)
instead of passing data through. -/
theorem to_dict_as_version_lookup (desc : SomeRunDescriber)
    (target target' : Nat) (htarget : target = 0 ∨ target = 1)
    (hmiss : _converters (desc.version, target') = none) :
    (∃ m, to_dict_as_version desc target = .ok m) ∧
    to_dict_as_version desc target' =
      .error (.unsupportedConversion (desc.version, target')) := by
  constructor
  · rcases htarget with h | h <;> subst h <;>
      cases desc <;> exact ⟨_, rfl⟩
  · unfold to_dict_as_version
    rw [hmiss]

/-- Witness for C2: lookup succeeds at target 1 and fails at target 5
for a version-0 document. -/
theorem to_dict_as_version_lookup_witness :
    (∃ m, to_dict_as_version (.v0 ⟨[]⟩) 1 = .ok m) ∧
    to_dict_as_version (.v0 ⟨[]⟩) 5 =
      .error (.unsupportedConversion (0, 5)) :=
  to_dict_as_version_lookup (.v0 ⟨[]⟩) 1 5 (Or.inr rfl) rfl

/-- C3: for every document of a registered version, serializing to a
mapping, reconstructing natively, and re-serializing at the same version
is the identity on the mapping. -/
theorem serialize_roundtrip_identity (d : SomeRunDescriber) :
    (from_dict_to_native d._to_dict).bind
      (fun desc => to_dict_as_version desc d.version) = .ok d._to_dict := by
  rw [from_dict_to_native_to_dict]
  exact to_dict_as_version_self d

/-- C4: on a mapping with a registered version, `from_dict_to_current`
is exactly the converter registered at `(native_version,
CURRENT_VERSION)` applied to `from_dict_to_native`, and the result is a
document of the current version 1. -/
theorem from_dict_to_current_is_converted_native (dct : Mapping)
    (desc : SomeRunDescriber) (h : from_dict_to_native dct = .ok desc) :
    ∃ conv r, _converters (desc.version, CURRENT_VERSION) = some conv ∧
      conv desc = some r ∧ from_dict_to_current dct = .ok r ∧
      r.version = 1 := by
  have hc : from_dict_to_current dct =
      match _converters (desc.version, CURRENT_VERSION) with
      | none => .error (.unsupportedConversion (desc.version, CURRENT_VERSION))
      | some conv =>
        match conv desc with
        | none => .error .typeError
        | some d => .ok d := by
    unfold from_dict_to_current
    rw [h]
  cases desc with
  | v0 x => exact ⟨_, _, rfl, rfl, hc, rfl⟩
  | v1 x => exact ⟨_, _, rfl, rfl, hc, rfl⟩

/-- Witness for C4 at a concrete version-0 mapping. -/
theorem from_dict_to_current_is_converted_native_witness :
    ∃ conv r,
      _converters ((SomeRunDescriber.v0 ⟨["a"]⟩).version, CURRENT_VERSION) =
        some conv ∧
      conv (.v0 ⟨["a"]⟩) = some r ∧
      from_dict_to_current
        [("version", .nat 0), ("interdependencies", .strs ["a"])] = .ok r ∧
      r.version = 1 :=
  from_dict_to_current_is_converted_native
    [("version", .nat 0), ("interdependencies", .strs ["a"])]
    (.v0 ⟨["a"]⟩) rfl

/-- C5: the converter table has an identity entry at `(v, v)` for every
known version `v`, and that converter returns any document unchanged
(it is the literal `lambda x: x`, so no copy is made). -/
theorem converters_identity_entries (v : Nat) (d : SomeRunDescriber)
    (hv : v = 0 ∨ v = 1) :
    ∃ conv, _converters (v, v) = some conv ∧ conv d = some d := by
  rcases hv with h | h <;> subst h <;> exact ⟨_, rfl, rfl⟩

/-- Witness for C5 at version 0 on a concrete document. -/
theorem converters_identity_entries_witness :
    ∃ conv, _converters (0, 0) = some conv ∧
      conv (.v0 ⟨["a"]⟩) = some (.v0 ⟨["a"]⟩) :=
  converters_identity_entries 0 (.v0 ⟨["a"]⟩) (Or.inl rfl)

/-- C6: `to_dict_for_storage` is exactly `to_dict_as_version` at
`STORAGE_VERSION`, and the constants are `STORAGE_VERSION = 0`,
`CURRENT_VERSION = 1`. -/
theorem to_dict_for_storage_is_as_storage_version (desc : SomeRunDescriber) :
    to_dict_for_storage desc = to_dict_as_version desc STORAGE_VERSION ∧
    STORAGE_VERSION = 0 ∧ CURRENT_VERSION = 1 :=
  ⟨rfl, rfl, rfl⟩

/-- C7: serializing a document through the compact (JSON) codec and
deserializing through the same codec gives the same current-version
document as doing both through the human-readable (YAML) codec, and both
succeed with a version-1 result. -/
theorem cross_codec_equivalence (desc : SomeRunDescriber) :
    (to_json_for_storage desc).bind from_json_to_current =
      (to_yaml_for_storage desc).bind from_yaml_to_current ∧
    ∃ r, (to_json_for_storage desc).bind from_json_to_current = .ok r ∧
      r.version = 1 := by
  cases desc with
  | v0 x => exact ⟨rfl, _, rfl, rfl⟩
  | v1 x => exact ⟨rfl, _, rfl, rfl⟩

/-- C8: the human-readable codec normalizes the parser's ordered-mapping
result into a plain mapping (the `dict(...)` call) before handing it to
the Dict Codec, for every YAML input. -/
theorem from_yaml_normalizes_ordered_mapping (t : YamlText) :
    from_yaml_to_current t =
      from_dict_to_current (dictOfOrderedMapping (yamlLoad t)) :=
  rfl

/-- C9: converter coverage is symmetric — whenever a key `(a, b)` is
registered in the table, so is `(b, a)`; in particular the downgrade
`(1, 0)` accompanies the upgrade `(0, 1)`. -/
theorem converters_symmetric_coverage (a b : Nat)
    (h : (_converters (a, b)).isSome = true) :
    (_converters (b, a)).isSome = true := by
  match a, b with
  | 0, 0 => rfl
  | 0, 1 => rfl
  | 1, 0 => rfl
  | 1, 1 => rfl
  | 0, n + 2 =>
    rw [converters_none_outside 0 (n + 2) (Or.inr (by omega))] at h
    exact absurd h (by simp)
  | 1, n + 2 =>
    rw [converters_none_outside 1 (n + 2) (Or.inr (by omega))] at h
    exact absurd h (by simp)
  | m + 2, b =>
    rw [converters_none_outside (m + 2) b (Or.inl (by omega))] at h
    exact absurd h (by simp)

/-- Witness for C9 at the upgrade key `(0, 1)`. -/
theorem converters_symmetric_coverage_witness :
    (_converters (1, 0)).isSome = true :=
  converters_symmetric_coverage 0 1 rfl

/-- C10: `from_dict_to_native` dispatches solely on the `version` entry:
a mapping carrying version 0 is handed verbatim to
`RunDescriberV0._from_dict`, one carrying version 1 to
`RunDescriberV1._from_dict`, whatever the remaining entries are. -/
theorem from_dict_to_native_dispatch (dct : Mapping) :
    (dct.get "version" = some (.nat 0) →
      from_dict_to_native dct = .ok (.v0 (RunDescriberV0._from_dict dct))) ∧
    (dct.get "version" = some (.nat 1) →
      from_dict_to_native dct = .ok (.v1 (RunDescriberV1._from_dict dct))) := by
  constructor <;> intro h <;> simp [from_dict_to_native, h]

/-- Witness for C10 on a version-0 mapping carrying an extraneous
entry. -/
theorem from_dict_to_native_dispatch_witness :
    from_dict_to_native [("version", .nat 0), ("foo", .str "bar")] =
      .ok (.v0 (RunDescriberV0._from_dict
        [("version", .nat 0), ("foo", .str "bar")])) :=
  (from_dict_to_native_dispatch
    [("version", .nat 0), ("foo", .str "bar")]).1 rfl
